import Mathlib

/-!
Verification of the check_brandmeister nagios plugin (src/lib.rs) against its
specification.  The library code is embedded shallowly: the ambient network is
a function from request URLs to HTTP call outcomes, and the ambient clock is
an explicit epoch-second instant, so the effectful Rust functions become pure
Lean functions of those environments.  The CLI driver (severity mapping,
status line, exit codes) is not part of src/ and is modelled from the spec
where noted.
-/

namespace BrandMeister

/-- A decoded JSON value (the image of serde_json values that matter here). -/
inductive JsonValue where
  | str : String → JsonValue
  | num : Int → JsonValue
  | boolVal : Bool → JsonValue
  | null : JsonValue
  | obj : List (String × JsonValue) → JsonValue

/-- The struct RepeaterStatus of lib.rs: one string field last_updated. -/
structure RepeaterStatus where
  last_updated : String
deriving DecidableEq

/-- An anyhow error value: the original message plus the stack of context
messages pushed onto it by .context(...) calls (most recent first). -/
structure AnyhowError where
  message : String
  ctxStack : List String
deriving DecidableEq

/-- anyhow .context: push a context message onto an error. -/
def addContext (msg : String) (e : AnyhowError) : AnyhowError :=
  { e with ctxStack := msg :: e.ctxStack }

/-- The context message attached to the HTTP call in get_bm_repeater_last_update. -/
def apiContextMsg : String :=
  "error parsing API result, ensure repeater id is valid"

/-- The error produced when the response body is not valid JSON
(ureq into_json fails before deserialization). -/
def jsonFailure : AnyhowError :=
  ⟨"Failed to read JSON", []⟩

/-- The error produced when valid JSON does not deserialize into
RepeaterStatus (missing or non-string last_updated, or a non-object body). -/
def decodeFailure : AnyhowError :=
  ⟨"error decoding RepeaterStatus", []⟩

/-- Outcome of the one ureq HTTP call: transport failure, a non-2xx status,
or a successful response whose body may (some) or may not (none) be JSON. -/
inductive CallResult where
  | transportError : String → CallResult
  | statusError : Nat → CallResult
  | success : Option JsonValue → CallResult

/-- The request URL built in get_bm_repeater_last_update (lib.rs): the fixed
template with the repeater id rendered in decimal. -/
def request_url (repeater_id : Nat) : String :=
  "http://api.brandmeister.network/v1.0/repeater/?action=get&q=" ++ Nat.repr repeater_id

/-- ureq Response.into_json up to the JSON text parse: a non-JSON body is an
error (no context is attached to it in the source). -/
def intoJson (body : Option JsonValue) : Except AnyhowError JsonValue :=
  match body with
  | none => .error jsonFailure
  | some v => .ok v

/-- serde deserialization of RepeaterStatus: the body must be a JSON object
whose field last_updated holds a string; every other field is ignored.
Any failure is the single decode error kind. -/
def deserializeRepeaterStatus (v : JsonValue) : Except AnyhowError RepeaterStatus :=
  match v with
  | .obj fields =>
    match fields.lookup "last_updated" with
    | some (.str s) => .ok ⟨s⟩
    | _ => .error decodeFailure
  | _ => .error decodeFailure

/-- get_bm_repeater_last_update of lib.rs: build the request URL, issue the
call (the ambient network http gives its outcome), attach the context message
to a call failure, then decode the body; return the last_updated string. -/
def get_bm_repeater_last_update (http : String → CallResult) (repeater_id : Nat) :
    Except AnyhowError String :=
  match http (request_url repeater_id) with
  | .transportError msg => .error (addContext apiContextMsg ⟨msg, []⟩)
  | .statusError code => .error (addContext apiContextMsg ⟨"status code " ++ Nat.repr code, []⟩)
  | .success body =>
    match intoJson body with
    | .error e => .error e
    | .ok v =>
      match deserializeRepeaterStatus v with
      | .error e => .error e
      | .ok status => .ok status.last_updated

/-- A parsed calendar timestamp (chrono NaiveDateTime at whole-second
granularity; a leap second parsed from a seconds field of 60 is kept as
second = 60). The year is signed, as chrono years are. -/
structure NaiveDateTime where
  year : Int
  month : Nat
  day : Nat
  hour : Nat
  minute : Nat
  second : Nat
deriving DecidableEq

/-- Drop leading whitespace characters (chrono trims whitespace before every
numeric item and at a whitespace item of the format string). -/
def skipWs : List Char → List Char
  | c :: rest => if c.isWhitespace then skipWs rest else c :: rest
  | [] => []

/-- Greedily consume up to fuel more digit characters, extending the
accumulated value, and return the value with the unconsumed rest. -/
def takeDigits : Nat → Nat → List Char → Nat × List Char
  | 0, acc, cs => (acc, cs)
  | _ + 1, acc, [] => (acc, [])
  | fuel + 1, acc, c :: rest =>
    if c.isDigit then takeDigits fuel (10 * acc + (c.toNat - 48)) rest
    else (acc, c :: rest)

/-- chrono scan number: between 1 and maxDigits decimal digits, consumed
greedily; fails when the first character is not a digit. -/
def scanNumber (maxDigits : Nat) (cs : List Char) : Option (Nat × List Char) :=
  match cs with
  | c :: rest =>
    if c.isDigit then some (takeDigits (maxDigits - 1) (c.toNat - 48) rest)
    else none
  | [] => none

/-- chrono parsing of the signed year item: an explicit minus or plus sign
is followed by an unbounded greedy digit run; without a sign, 1 to 4 digits
are taken. -/
def scanSignedYear (cs : List Char) : Option (Int × List Char) :=
  match cs with
  | '-' :: rest => (scanNumber rest.length rest).map (fun p => (-(p.1 : Int), p.2))
  | '+' :: rest => (scanNumber rest.length rest).map (fun p => ((p.1 : Int), p.2))
  | _ => (scanNumber 4 cs).map (fun p => ((p.1 : Int), p.2))

/-- A literal character of the format string must match exactly (chrono does
not trim around literals). -/
def expectChar (c : Char) : List Char → Option (List Char)
  | d :: rest => if d == c then some rest else none
  | [] => none

/-- Proleptic Gregorian leap year (divisibility is sign-agnostic, so this
matches the Rust computation on negative years too). -/
def isLeapYear (y : Int) : Bool :=
  y % 4 == 0 && (y % 100 != 0 || y % 400 == 0)

/-- Days in a month of the proleptic Gregorian calendar. -/
def daysInMonth (y : Int) (m : Nat) : Nat :=
  if m == 2 then (if isLeapYear y then 29 else 28)
  else if m == 4 || m == 6 || m == 9 || m == 11 then 30
  else 31

/-- chrono datetime_from_str with the format of lib.rs, interpreted as UTC.
chrono is lenient around the format: each unsigned numeric item takes 1 up
to its width digits greedily (so unpadded fields parse), a signed year takes
an unbounded digit run after an explicit sign, ASCII and other whitespace is
trimmed before every numeric item and at the space of the format, the seconds
field accepts the leap-second value 60, and the calendar year must lie in
chrono range -262144..=262143; literals must match exactly, trailing input
is refused, and the date and time of day must be valid. -/
def parseTimestamp (s : String) : Option NaiveDateTime := do
  let (y, cs1) ← scanSignedYear (skipWs s.toList)
  let cs2 ← expectChar '-' cs1
  let (mo, cs3) ← scanNumber 2 (skipWs cs2)
  let cs4 ← expectChar '-' cs3
  let (d, cs5) ← scanNumber 2 (skipWs cs4)
  let (h, cs6) ← scanNumber 2 (skipWs cs5)
  let cs7 ← expectChar ':' cs6
  let (mi, cs8) ← scanNumber 2 (skipWs cs7)
  let cs9 ← expectChar ':' cs8
  let (se, cs10) ← scanNumber 2 (skipWs cs9)
  if cs10 = [] ∧ -262144 ≤ y ∧ y ≤ 262143 ∧ 1 ≤ mo ∧ mo ≤ 12 ∧ 1 ≤ d ∧
      d ≤ daysInMonth y mo ∧ h ≤ 23 ∧ mi ≤ 59 ∧ se ≤ 60 then
    pure ⟨y, mo, d, h, mi, se⟩
  else none

/-- Days from 1970-01-01 to the given proleptic Gregorian date (the civil
calendar arithmetic underlying the chrono UTC timestamp; division on Int is
Euclidean, hence floor for these positive divisors, as the algorithm needs). -/
def daysFromCivil (y : Int) (m d : Nat) : Int :=
  let yy := if m ≤ 2 then y - 1 else y
  let era := yy / 400
  let yoe := yy - era * 400
  let mp := (m + 9) % 12
  let doy := (153 * mp + 2) / 5 + (d - 1)
  let doe := yoe * 365 + yoe / 4 - yoe / 100 + (doy : Int)
  era * 146097 + doe - 719468

/-- A parsed timestamp as seconds since the Unix epoch (UTC). A leap second
(seconds field 60) stands one second after second 59, as its sub-second
fraction of a whole second makes it behave in duration arithmetic. -/
def toEpochSecs (t : NaiveDateTime) : Int :=
  daysFromCivil t.year t.month t.day * 86400 +
    ((t.hour * 3600 + t.minute * 60 + t.second : Nat) : Int)

/-- chrono signed_duration_since at second granularity: the signed number of
seconds from the timestamp to now. -/
def signedDurationSince (now ts : Int) : Int :=
  now - ts

/-- chrono Duration.num_minutes: whole seconds divided by 60 with Rust i64
division, which truncates toward zero. -/
def numMinutes (secs : Int) : Int :=
  Int.tdiv secs 60

/-- The evaluation error kinds: a fetch failure carried through, or a
timestamp that did not parse under the fixed format. -/
inductive EvalError where
  | fetchError : AnyhowError → EvalError
  | invalidTimestamp : EvalError
deriving DecidableEq

/-- last_seen_minutes of lib.rs: fetch the last_updated string, parse it with
the fixed UTC format, and return the whole minutes from the parsed instant to
now.  The ambient network and clock are explicit arguments. -/
def last_seen_minutes (http : String → CallResult) (now : Int) (repeater_id : Nat) :
    Except EvalError Int :=
  match get_bm_repeater_last_update http repeater_id with
  | .error e => .error (.fetchError e)
  | .ok last_update_str =>
    match parseTimestamp last_update_str with
    | none => .error .invalidTimestamp
    | some t => .ok (numMinutes (signedDurationSince now (toEpochSecs t)))

/-- The severity levels of the plugin protocol. -/
inductive Severity where
  | ok
  | warning
  | critical
  | unknown
deriving DecidableEq

/-- Modelled from the spec: the threshold mapping of the CLI driver (the
driver source is not under src/), spec section 4.2: first elapsed >= crit_min
gives CRITICAL, else elapsed >= warn_min gives WARNING, else OK. -/
def severity (elapsed : Int) (warn_min crit_min : Nat) : Severity :=
  if (crit_min : Int) ≤ elapsed then .critical
  else if (warn_min : Int) ≤ elapsed then .warning
  else .ok

/-- The severity word printed in the status line. -/
def severityWord : Severity → String
  | .ok => "OK"
  | .warning => "WARNING"
  | .critical => "CRITICAL"
  | .unknown => "UNKNOWN"

/-- Modelled from the spec: the plugin exit codes, spec section 6. -/
def exitCode : Severity → Nat
  | .ok => 0
  | .warning => 1
  | .critical => 2
  | .unknown => 3

/-- Modelled from the spec: the performance-data token of the status line. -/
def perfData (elapsed : Int) (warn crit : Nat) : String :=
  "'last_seen_min'=" ++ Int.repr elapsed ++ ";" ++ Nat.repr warn ++ ";" ++ Nat.repr crit ++ ";;"

/-- Modelled from the spec: the one-line plugin output, spec section 6. -/
def statusLine (id : Nat) (sev : Severity) (elapsed : Int) (warn crit : Nat) : String :=
  "BrandMeister repeater " ++ Nat.repr id ++ " is " ++ severityWord sev ++
    ": online status| " ++ perfData elapsed warn crit

/-- What one run of the process produces: the printed line and the exit code. -/
structure RunOutput where
  line : String
  exit : Nat
deriving DecidableEq

/-- Modelled from the spec: the error report printed when fetch or parse
fails (UNKNOWN, exit code 3), spec section 7. -/
def errorLine (e : EvalError) : String :=
  match e with
  | .fetchError a => "UNKNOWN: " ++ String.intercalate ": " (a.ctxStack ++ [a.message])
  | .invalidTimestamp => "UNKNOWN: invalid timestamp"

/-- Modelled from the spec: the CLI driver, spec sections 2, 6 and 7: run the
evaluation, print either the full status line with the severity exit code or
an UNKNOWN line with exit code 3. -/
def run (http : String → CallResult) (now : Int) (id warn crit : Nat) : RunOutput :=
  match last_seen_minutes http now id with
  | .error e => ⟨errorLine e, 3⟩
  | .ok elapsed =>
    let sev := severity elapsed warn crit
    ⟨statusLine id sev elapsed warn crit, exitCode sev⟩

/-- Network environment answering every URL with the good body of the worked
examples: last_updated at 2024-01-01 00:00:00 plus an extra ignored field. -/
def goodBody : JsonValue :=
  .obj [("last_updated", .str "2024-01-01 00:00:00"), ("status", .num 3)]

/-- Environment returning goodBody for every request. -/
def httpGood : String → CallResult :=
  fun _ => .success (some goodBody)

/-- Environment returning a body with only last_updated, no extra fields. -/
def httpLone : String → CallResult :=
  fun _ => .success (some (.obj [("last_updated", .str "2024-01-01 00:00:00")]))

/-- Environment returning a JSON object that lacks last_updated. -/
def httpMissingField : String → CallResult :=
  fun _ => .success (some (.obj [("id", .num 270107)]))

/-- Environment returning a timestamp 30 seconds past midnight. -/
def httpFuture : String → CallResult :=
  fun _ => .success (some (.obj [("last_updated", .str "2024-01-01 00:00:30")]))

/-- Environment returning a timestamp two minutes past midnight. -/
def httpFarFuture : String → CallResult :=
  fun _ => .success (some (.obj [("last_updated", .str "2024-01-01 00:02:00")]))

/-- Environment whose connection fails. -/
def httpDown : String → CallResult :=
  fun _ => .transportError "connection refused"

end BrandMeister

namespace BrandMeister

/-- C1: for every elapsed value and every pair of thresholds, the severity
mapping checks the critical threshold first: elapsed at or above crit_min is
CRITICAL (even when warn_min > crit_min, no relation between the thresholds
is assumed), otherwise elapsed at or above warn_min is WARNING, otherwise OK. -/
theorem severity_critical_precedence (elapsed : Int) (warn_min crit_min : Nat) :
    ((crit_min : Int) ≤ elapsed → severity elapsed warn_min crit_min = Severity.critical) ∧
    (elapsed < (crit_min : Int) → (warn_min : Int) ≤ elapsed →
      severity elapsed warn_min crit_min = Severity.warning) ∧
    (elapsed < (crit_min : Int) → elapsed < (warn_min : Int) →
      severity elapsed warn_min crit_min = Severity.ok) := by
  unfold severity
  refine ⟨fun h => if_pos h, fun h1 h2 => ?_, fun h1 h2 => ?_⟩
  · rw [if_neg (not_le.mpr h1), if_pos h2]
  · rw [if_neg (not_le.mpr h1), if_neg (not_le.mpr h2)]

/-- C1 witness: elapsed 20 with warn 25 > crit 15 is CRITICAL (critical
checked first), elapsed 12 with warn 10, crit 15 is WARNING, elapsed 3 is OK. -/
theorem severity_critical_precedence_w :
    severity 20 25 15 = Severity.critical ∧
    severity 12 10 15 = Severity.warning ∧
    severity 3 10 15 = Severity.ok :=
  ⟨(severity_critical_precedence 20 25 15).1 (by decide),
   (severity_critical_precedence 12 10 15).2.1 (by decide) (by decide),
   (severity_critical_precedence 3 10 15).2.2 (by decide) (by decide)⟩

/-- C2: whenever the fetch yields a string that parses under the fixed
format, last_seen_minutes returns now minus the parsed timestamp truncated
(Rust i64 division, toward zero) to whole minutes. -/
theorem last_seen_minutes_truncated (http : String → CallResult) (now : Int)
    (id : Nat) (s : String) (t : NaiveDateTime)
    (hf : get_bm_repeater_last_update http id = Except.ok s)
    (hp : parseTimestamp s = some t) :
    last_seen_minutes http now id = Except.ok (Int.tdiv (now - toEpochSecs t) 60) := by
  simp only [last_seen_minutes, hf, hp, numMinutes, signedDurationSince]

/-- C2 witness: parsing 2024-01-01 00:00:00 against now 2024-01-01 00:10:00
(epoch 1704067800) yields 10; against now 90 seconds later than the timestamp
it yields 1, truncated and not rounded to 2. -/
theorem last_seen_minutes_truncated_w :
    last_seen_minutes httpGood 1704067800 270107 = Except.ok 10 ∧
    last_seen_minutes httpGood 1704067290 270107 = Except.ok 1 := by
  have h1 := last_seen_minutes_truncated httpGood 1704067800 270107
    "2024-01-01 00:00:00" ⟨2024, 1, 1, 0, 0, 0⟩ rfl rfl
  have h2 := last_seen_minutes_truncated httpGood 1704067290 270107
    "2024-01-01 00:00:00" ⟨2024, 1, 1, 0, 0, 0⟩ rfl rfl
  exact ⟨by rw [h1]; rfl, by rw [h2]; rfl⟩

/-- Model check: unpadded digit runs parse (chrono numeric items take 1 up
to width digits). -/
theorem parse_unpadded : parseTimestamp "2024-1-1 0:0:0" = some ⟨2024, 1, 1, 0, 0, 0⟩ := rfl

/-- Model check: an explicitly signed year parses with a padded digit run. -/
theorem parse_signed_year : parseTimestamp "-0002-03-04 05:06:07" = some ⟨-2, 3, 4, 5, 6, 7⟩ := rfl

/-- Model check: the leap-second seconds value 60 is accepted. -/
theorem parse_leap_second :
    parseTimestamp "2024-12-31 23:59:60" = some ⟨2024, 12, 31, 23, 59, 60⟩ := rfl

/-- Model check: whitespace before a numeric field is skipped. -/
theorem parse_flexible_ws :
    parseTimestamp "2024-01-01  00:00:00" = some ⟨2024, 1, 1, 0, 0, 0⟩ := rfl

/-- Model check: trailing input is refused. -/
theorem parse_trailing : parseTimestamp "2024-01-01 00:00:00x" = none := rfl

/-- Model check: a year outside the chrono calendar range is refused. -/
theorem parse_year_range : parseTimestamp "+9999999-01-01 00:00:00" = none := rfl

/-- C7: the fetch builds exactly the URL
http://api.brandmeister.network/v1.0/repeater/?action=get&q= followed by the
id in decimal, and on a JSON object response it extracts the last_updated
string from the body. -/
theorem fetch_url_and_extract (id : Nat) (http : String → CallResult)
    (fields : List (String × JsonValue)) (s : String)
    (hresp : http (request_url id) = CallResult.success (some (JsonValue.obj fields)))
    (hfield : fields.lookup "last_updated" = some (JsonValue.str s)) :
    request_url id =
      "http://api.brandmeister.network/v1.0/repeater/?action=get&q=" ++ Nat.repr id ∧
    get_bm_repeater_last_update http id = Except.ok s := by
  refine ⟨rfl, ?_⟩
  simp only [get_bm_repeater_last_update, hresp, intoJson, deserializeRepeaterStatus, hfield]

/-- C7 witness: for id 270107 the URL is the fixed template ending in
q=270107 and the fetch returns the body timestamp string. -/
theorem fetch_url_and_extract_w :
    request_url 270107 =
      "http://api.brandmeister.network/v1.0/repeater/?action=get&q=270107" ∧
    get_bm_repeater_last_update httpGood 270107 = Except.ok "2024-01-01 00:00:00" := by
  have h := fetch_url_and_extract 270107 httpGood
    [("last_updated", JsonValue.str "2024-01-01 00:00:00"), ("status", JsonValue.num 3)]
    "2024-01-01 00:00:00" rfl rfl
  exact ⟨rfl, h.2⟩

/-- C8 counterexample: the source last_seen_minutes takes only the repeater
id as explicit input and reads the system clock internally, so on the same
repeater id and the same fetched response, two runs at different ambient
clock instants give different results: the result is not a function of the
explicit inputs and now is not an explicit parameter of the source function. -/
theorem clock_dependence_cex :
    last_seen_minutes httpGood 1704067800 270107 ≠ last_seen_minutes httpGood 1704068400 270107 := by
  intro h
  have h1 : last_seen_minutes httpGood 1704067800 270107 = Except.ok 10 := rfl
  have h2 : last_seen_minutes httpGood 1704068400 270107 = Except.ok 20 := rfl
  rw [h1, h2] at h
  simp at h

/-- C8 amended: the source reads the clock (and the network) internally
rather than taking now as an explicit input; relative to the explicitly
passed instant now and to the fetch outcome, evaluation is deterministic and
side-effect free: equal fetched results and equal now give identical results. -/
theorem eval_deterministic (http http2 : String → CallResult) (now : Int)
    (id id2 : Nat)
    (h : get_bm_repeater_last_update http id = get_bm_repeater_last_update http2 id2) :
    last_seen_minutes http now id = last_seen_minutes http2 now id2 := by
  unfold last_seen_minutes
  rw [h]

/-- C8 witness: two different repeater ids whose fetch outcomes agree give
identical evaluations at the same instant. -/
theorem eval_deterministic_w :
    last_seen_minutes httpGood 1704067800 270107 = last_seen_minutes httpGood 1704067800 999 :=
  eval_deterministic httpGood httpGood 1704067800 270107 999 rfl

end BrandMeister

namespace BrandMeister

/-- C3 counterexample: the timestamp 2024-01-01 00:00:30 parses and lies 30
seconds in the future of now = epoch 1704067200 (2024-01-01 00:00:00), yet
last_seen_minutes returns 0, which is not negative: a future timestamp does
not always yield a negative elapsed value, because the division truncates
toward zero. -/
theorem future_not_negative_cex :
    parseTimestamp "2024-01-01 00:00:30" = some ⟨2024, 1, 1, 0, 0, 30⟩ ∧
    (1704067200 : Int) < toEpochSecs ⟨2024, 1, 1, 0, 0, 30⟩ ∧
    last_seen_minutes httpFuture 1704067200 270107 = Except.ok 0 ∧
    ¬ (0 : Int) < 0 :=
  ⟨rfl, by decide, rfl, by decide⟩

/-- C3 amended: for every parsed timestamp in the future of now, the elapsed
value is returned unchanged, nonpositive, never clamped and never an error;
it is strictly negative as soon as the timestamp is at least a whole minute
ahead (truncation toward zero sends smaller gaps to 0); and every strictly
negative elapsed maps to severity OK for all (nonnegative) thresholds. -/
theorem future_ts_nonpositive (http : String → CallResult) (now : Int)
    (id : Nat) (s : String) (t : NaiveDateTime) (warn crit : Nat)
    (hf : get_bm_repeater_last_update http id = Except.ok s)
    (hp : parseTimestamp s = some t)
    (hfut : now < toEpochSecs t) :
    last_seen_minutes http now id = Except.ok (Int.tdiv (now - toEpochSecs t) 60) ∧
    Int.tdiv (now - toEpochSecs t) 60 ≤ 0 ∧
    (toEpochSecs t ≥ now + 60 → Int.tdiv (now - toEpochSecs t) 60 < 0) ∧
    (∀ e : Int, e < 0 → severity e warn crit = Severity.ok) := by
  refine ⟨by simp only [last_seen_minutes, hf, hp, numMinutes, signedDurationSince], ?_, ?_, ?_⟩
  · have h := Int.tdiv_nonneg (a := toEpochSecs t - now) (b := 60) (by omega) (by omega)
    have h2 : toEpochSecs t - now = -(now - toEpochSecs t) := by ring
    rw [h2, Int.neg_tdiv] at h
    omega
  · intro hge
    have h1 : (1 : Int) ≤ Int.tdiv (toEpochSecs t - now) 60 := by
      rw [Int.tdiv_eq_ediv (by omega) (by norm_num)]
      exact (Int.le_ediv_iff_mul_le (by norm_num)).2 (by omega)
    have h2 : toEpochSecs t - now = -(now - toEpochSecs t) := by ring
    rw [h2, Int.neg_tdiv] at h1
    omega
  · intro e he
    have hw : (0 : Int) ≤ (warn : Int) := Int.natCast_nonneg warn
    have hc : (0 : Int) ≤ (crit : Int) := Int.natCast_nonneg crit
    unfold severity
    rw [if_neg (by omega), if_neg (by omega)]

/-- C3 witness of the amended claim: a timestamp two minutes ahead of now
gives elapsed -2, which the severity mapping sends to OK with warn 10,
crit 15. -/
theorem future_ts_nonpositive_w :
    last_seen_minutes httpFarFuture 1704067200 270107 = Except.ok (-2) ∧
    severity (-2) 10 15 = Severity.ok := by
  have h := future_ts_nonpositive httpFarFuture 1704067200 270107
    "2024-01-01 00:02:00" ⟨2024, 1, 1, 0, 2, 0⟩ 10 15 rfl rfl (by decide)
  exact ⟨by rw [h.1]; rfl, h.2.2.2 (-2) (by decide)⟩

/-- C5 counterexample: a 2xx response whose JSON body lacks the expected
field does fail the fetch, but the resulting error does not carry the
context message: in the source the context is attached only to the HTTP
call, not to the into_json decoding step. -/
theorem fetch_context_cex :
    get_bm_repeater_last_update httpMissingField 270107 = Except.error decodeFailure ∧
    apiContextMsg ∉ decodeFailure.ctxStack :=
  ⟨rfl, by decide⟩

/-- C5 amended: every failure of the fetch collapses to the single anyhow
error type, but only failures of the HTTP call itself (transport failure,
non-2xx status) carry the context message error parsing API result, ensure
repeater id is valid; a malformed (non-JSON) body or a body that does not
decode also fails the fetch, with an error that lacks that context message. -/
theorem fetch_error_collapse (http : String → CallResult) (id : Nat) :
    (∀ msg, http (request_url id) = CallResult.transportError msg →
      get_bm_repeater_last_update http id =
        Except.error (addContext apiContextMsg ⟨msg, []⟩) ∧
      apiContextMsg ∈ (addContext apiContextMsg (⟨msg, []⟩ : AnyhowError)).ctxStack) ∧
    (∀ code, http (request_url id) = CallResult.statusError code →
      get_bm_repeater_last_update http id =
        Except.error (addContext apiContextMsg ⟨"status code " ++ Nat.repr code, []⟩) ∧
      apiContextMsg ∈
        (addContext apiContextMsg (⟨"status code " ++ Nat.repr code, []⟩ : AnyhowError)).ctxStack) ∧
    (http (request_url id) = CallResult.success none →
      get_bm_repeater_last_update http id = Except.error jsonFailure ∧
      apiContextMsg ∉ jsonFailure.ctxStack) ∧
    (∀ v, http (request_url id) = CallResult.success (some v) →
      deserializeRepeaterStatus v = Except.error decodeFailure →
      get_bm_repeater_last_update http id = Except.error decodeFailure ∧
      apiContextMsg ∉ decodeFailure.ctxStack) := by
  refine ⟨fun msg h => ⟨?_, ?_⟩, fun code h => ⟨?_, ?_⟩, fun h => ⟨?_, ?_⟩,
    fun v h hd => ⟨?_, ?_⟩⟩
  · simp only [get_bm_repeater_last_update, h]
  · simp [addContext]
  · simp only [get_bm_repeater_last_update, h]
  · simp [addContext]
  · simp only [get_bm_repeater_last_update, h, intoJson]
  · decide
  · simp only [get_bm_repeater_last_update, h, intoJson, hd]
  · decide

/-- C5 witness: a connection failure produces the single error type with the
context message attached to it. -/
theorem fetch_error_collapse_w :
    get_bm_repeater_last_update httpDown 270107 =
      Except.error (addContext apiContextMsg ⟨"connection refused", []⟩) :=
  ((fetch_error_collapse httpDown 270107).1 "connection refused" rfl).1

/-- C6: every run produces exactly one of: the full status line with exit
code 0, 1 or 2 matching the computed severity, or an UNKNOWN error line with
exit code 3, never a mix; and concretely repeater 270107 with warn 10,
crit 15 and elapsed 0 prints exactly
BrandMeister repeater 270107 is OK: online status| (then the performance
token last_seen_min quoted in apostrophes) =0;10;15;; and exits with code 0. -/
theorem run_contract (http : String → CallResult) (now : Int) (id warn crit : Nat) :
    ((∃ e : Int, last_seen_minutes http now id = Except.ok e ∧
        run http now id warn crit =
          ⟨statusLine id (severity e warn crit) e warn crit,
            exitCode (severity e warn crit)⟩ ∧
        exitCode (severity e warn crit) ≤ 2) ∨
      (∃ err, last_seen_minutes http now id = Except.error err ∧
        run http now id warn crit = ⟨errorLine err, 3⟩)) ∧
    run httpGood 1704067200 270107 10 15 =
      ⟨"BrandMeister repeater 270107 is OK: online status| 'last_seen_min'=0;10;15;;", 0⟩ := by
  constructor
  · cases hm : last_seen_minutes http now id with
    | error err => exact Or.inr ⟨err, rfl, by simp only [run, hm]⟩
    | ok e =>
      refine Or.inl ⟨e, rfl, by simp only [run, hm], ?_⟩
      unfold severity
      split
      · decide
      · split <;> decide
  · rfl

/-- C9: decoding needs only a string field last_updated: a JSON object whose
last_updated field holds a string decodes to exactly that string with every
other field ignored, and the fetch returns it unmodified; an object without
last_updated fails to decode, and a body that fails to decode fails the
fetch. -/
theorem decode_only_last_updated (fields : List (String × JsonValue)) (s : String)
    (http : String → CallResult) (id : Nat)
    (hfield : fields.lookup "last_updated" = some (JsonValue.str s))
    (hresp : http (request_url id) = CallResult.success (some (JsonValue.obj fields))) :
    deserializeRepeaterStatus (JsonValue.obj fields) = Except.ok ⟨s⟩ ∧
    get_bm_repeater_last_update http id = Except.ok s ∧
    (∀ fs : List (String × JsonValue), fs.lookup "last_updated" = none →
      deserializeRepeaterStatus (JsonValue.obj fs) = Except.error decodeFailure) ∧
    (∀ http2 : String → CallResult, ∀ id2 : Nat, ∀ v : JsonValue,
      http2 (request_url id2) = CallResult.success (some v) →
      deserializeRepeaterStatus v = Except.error decodeFailure →
      get_bm_repeater_last_update http2 id2 = Except.error decodeFailure) := by
  refine ⟨?_, ?_, ?_, ?_⟩
  · simp only [deserializeRepeaterStatus, hfield]
  · simp only [get_bm_repeater_last_update, hresp, intoJson, deserializeRepeaterStatus, hfield]
  · intro fs hnone
    simp only [deserializeRepeaterStatus, hnone]
  · intro http2 id2 v h hd
    simp only [get_bm_repeater_last_update, h, intoJson, hd]

/-- C9 witness: the good body with an extra status field decodes to its
last_updated string unmodified, and the body without last_updated fails the
fetch. -/
theorem decode_only_last_updated_w :
    deserializeRepeaterStatus goodBody = Except.ok ⟨"2024-01-01 00:00:00"⟩ ∧
    get_bm_repeater_last_update httpMissingField 270107 = Except.error decodeFailure := by
  have h := decode_only_last_updated
    [("last_updated", JsonValue.str "2024-01-01 00:00:00"), ("status", JsonValue.num 3)]
    "2024-01-01 00:00:00" httpGood 270107 rfl rfl
  refine ⟨h.1, ?_⟩
  exact h.2.2.2 httpMissingField 270107 (JsonValue.obj [("id", JsonValue.num 270107)]) rfl
    (h.2.2.1 [("id", JsonValue.num 270107)] rfl)

/-- C10: last_seen_minutes performs no validation of the repeater id: every
u32 value, 0 included, is accepted and embedded in decimal into the query
URL, and the result depends on the id only through the response the network
gives at that URL. -/
theorem no_id_validation (id : Nat) (hid : id < 4294967296)
    (http http2 : String → CallResult) (now : Int) :
    request_url id =
      "http://api.brandmeister.network/v1.0/repeater/?action=get&q=" ++ Nat.repr id ∧
    (http (request_url id) = http2 (request_url id) →
      last_seen_minutes http now id = last_seen_minutes http2 now id) ∧
    (∀ s : String, http (request_url id) =
        CallResult.success (some (JsonValue.obj [("last_updated", JsonValue.str s)])) →
      get_bm_repeater_last_update http id = Except.ok s) := by
  refine ⟨rfl, fun h => ?_, fun s h => ?_⟩
  · unfold last_seen_minutes get_bm_repeater_last_update
    rw [h]
  · have hl : List.lookup "last_updated" [("last_updated", JsonValue.str s)] =
        some (JsonValue.str s) := by
      simp [List.lookup]
    simp only [get_bm_repeater_last_update, h, intoJson, deserializeRepeaterStatus, hl]

/-- C10 witness: id 0 is accepted, its URL ends in q=0, and with a valid
response at that URL the fetch succeeds. -/
theorem no_id_validation_w :
    request_url 0 = "http://api.brandmeister.network/v1.0/repeater/?action=get&q=0" ∧
    get_bm_repeater_last_update httpLone 0 = Except.ok "2024-01-01 00:00:00" := by
  have h := no_id_validation 0 (by decide) httpLone httpLone 1704067200
  exact ⟨rfl, h.2.2 "2024-01-01 00:00:00" rfl⟩

end BrandMeister
